import Mathlib

/-!
Verification of the DORA metrics analyzer
(`src/analyzers/metrics_analyzer.py` of vmware-dora-evidence).

Shallow embedding conventions:

* A Python field value is a `Val`: `vNone` models `None`; `vStr raw parsed`
  models a Python `str` whose text is `raw` and for which
  `datetime.fromisoformat(raw.replace('Z', '+00:00'))` returns the instant
  `parsed` (measured in whole seconds since an arbitrary epoch), or raises
  `ValueError` when `parsed = none`; `vDt t` models a `datetime` object at
  instant `t` seconds.  Instants are `Int` seconds, so a day is 86400 and an
  hour 3600; `timedelta.days` is floor division by 86400 and
  `.total_seconds() / 3600` is exact rational division by 3600.
* Python floats are modelled as `Rat`; every arithmetic step the analyzer
  performs is division or mean of small integers, where rational arithmetic
  agrees with the claims under test.
* A record (`Dict[str, Any]`) is a structure of `Option Val` fields, one per
  key the analyzer reads; `none` models an absent key.
* `dict.get(k)` yields `vNone` when absent; `dict.get('status', '')` yields
  the empty string when absent.
* The only statement in the analyzer that can raise on data-shape issues is
  `deployment.get('status', '').lower()` (an `AttributeError` when the key is
  present but its value is not a string), so `_calculate_change_failure_rate`
  and `calculate_dora_metrics` are embedded in `Except PyError`; the other
  three metric functions guard every conversion and are total.
-/

/-- A Python value as seen by the analyzer: `None`, a string together with
the result of `datetime.fromisoformat` on it (after the `Z` replacement),
or a `datetime` object at a given instant in seconds. -/
inductive Val where
  | vNone : Val
  | vStr : String → Option Int → Val
  | vDt : Int → Val
deriving DecidableEq, Repr

/-- Python truthiness of a `Val`: `None` is falsy, a string is truthy iff
non-empty, a `datetime` object is always truthy. -/
def Val.truthy : Val → Bool
  | .vNone => false
  | .vStr raw _ => !(raw.isEmpty)
  | .vDt _ => true

/-- The conversion step the analyzer repeats inline: a string is parsed with
`datetime.fromisoformat` (after replacing a trailing `Z`), `none` modelling
the caught `ValueError`; a `datetime` is kept; anything else yields no
datetime (the subsequent `isinstance(_, datetime)` test fails). -/
def Val.toDatetime? : Val → Option Int
  | .vNone => none
  | .vStr _ parsed => parsed
  | .vDt t => some t

/-- Python `a or b` on field values: `a` when truthy, else `b`. -/
def pyOr (a b : Val) : Val :=
  if a.truthy then a else b

/-- A deployment or incident record: the keys the analyzer reads, each
possibly absent.  Extra keys of the Python dict are never read and are not
modelled. -/
structure Record where
  timestamp : Option Val := none
  status : Option Val := none
  start_time : Option Val := none
  end_time : Option Val := none
  resolved_time : Option Val := none
deriving DecidableEq, Repr

/-- `record.get(key)` for a key with no default: absent keys give `None`. -/
def Record.getTimestamp (r : Record) : Val := r.timestamp.getD .vNone

def Record.getStartTime (r : Record) : Val := r.start_time.getD .vNone

def Record.getEndTime (r : Record) : Val := r.end_time.getD .vNone

def Record.getResolvedTime (r : Record) : Val := r.resolved_time.getD .vNone

/-- `deployment.get('status', '')`: the empty string only when the key is
absent; a present value (even `None`) is returned as is. -/
def Record.getStatus (r : Record) : Val := r.status.getD (.vStr "" none)

/-- The `AttributeError` raised by `value.lower()` when `value` is not a
string. -/
inductive PyError where
  | attributeError : PyError
deriving DecidableEq, Repr

/-- `value.lower()` on the result of `deployment.get('status', '')`:
lower-cases a string, raises `AttributeError` on `None` or a `datetime`. -/
def Record.statusLower (r : Record) : Except PyError String :=
  match r.getStatus with
  | .vStr raw _ => .ok raw.toLower
  | _ => .error .attributeError

/-- `_calculate_deployment_frequency`, first extraction: the `timestamp`
values of the deployments that are truthy
(`[d.get('timestamp') for d in deployments if d.get('timestamp')]`). -/
def extractDates (deployments : List Record) : List Val :=
  (deployments.map Record.getTimestamp).filter Val.truthy

/-- `_calculate_deployment_frequency`, conversion loop: keep parsed strings
and `datetime` objects, drop strings whose parse raised `ValueError`. -/
def datetimeObjects (deployments : List Record) : List Int :=
  (extractDates deployments).filterMap Val.toDatetime?

/-- `_calculate_deployment_frequency` (deployments per day, as the code
computes it): empty list or no truthy timestamps give `0.0`; fewer than two
parsed datetimes give the raw record count; otherwise the record count
divided by `(max - min).days`, with a zero span replaced by one day. -/
def calculateDeploymentFrequency (deployments : List Record) : Rat :=
  if deployments = [] then 0
  else
    let dates := extractDates deployments
    if dates = [] then 0
    else
      let dts := datetimeObjects deployments
      if dts.length < 2 then (deployments.length : Rat)
      else
        let minDate := dts.min?.getD 0
        let maxDate := dts.max?.getD 0
        let timeSpan := (maxDate - minDate).fdiv 86400
        let timeSpan := if timeSpan = 0 then 1 else timeSpan
        (deployments.length : Rat) / (timeSpan : Rat)

/-- The spec's reference algorithm for deployment frequency, written from the
spec's words: extract the timestamps that exist; none gives `0.0`; fewer than
two parsing to valid datetimes gives the raw record count; otherwise
`total_record_count / span_days` where `span_days` is the floor of the
max-min span in days clamped to a minimum of 1. -/
def specDeploymentFrequency (deployments : List Record) : Rat :=
  let present := extractDates deployments
  if present = [] then 0
  else
    let parsed := present.filterMap Val.toDatetime?
    if parsed.length < 2 then (deployments.length : Rat)
    else
      let spanDays := max 1 ((parsed.max?.getD 0 - parsed.min?.getD 0).fdiv 86400)
      (deployments.length : Rat) / (spanDays : Rat)

/-- One iteration of the `_calculate_lead_time` loop: a deployment
contributes `(end_time - start_time)` in hours when both fields are truthy,
both convert to datetimes, and the difference is non-negative. -/
def leadTimeOf (d : Record) : Option Rat :=
  let s := d.getStartTime
  let e := d.getEndTime
  if s.truthy && e.truthy then
    match s.toDatetime?, e.toDatetime? with
    | some st, some et =>
        let hours : Rat := ((et - st : Int) : Rat) / 3600
        if 0 ≤ hours then some hours else none
    | _, _ => none
  else none

/-- The list `lead_times` accumulated by `_calculate_lead_time`. -/
def leadTimes (deployments : List Record) : List Rat :=
  deployments.filterMap leadTimeOf

/-- `_calculate_lead_time` (hours): the mean of the collected lead times, or
the `24.0`-hour default when none were collected. -/
def calculateLeadTime (deployments : List Record) : Rat :=
  let ts := leadTimes deployments
  if ts = [] then 24 else ts.sum / (ts.length : Rat)

/-- The inner test of the incident/deployment cross-correlation: a
deployment matches an (already converted) incident instant when its
`timestamp` is truthy, converts to a datetime, and
`timedelta(0) <= incident_time - deploy_time <= timedelta(hours=24)`. -/
def deployMatches (incidentTime : Int) (d : Record) : Bool :=
  let dt := d.getTimestamp
  if dt.truthy then
    match dt.toDatetime? with
    | some deployTime =>
        decide (0 ≤ incidentTime - deployTime) &&
          decide (incidentTime - deployTime ≤ 86400)
    | none => false
  else false

/-- The inner `for deployment in deployments` loop of
`_calculate_change_failure_rate` for one incident: scan in order, add one
credit and `break` at the first matching deployment. -/
def scanDeployments (incidentTime : Int) : List Record → Nat
  | [] => 0
  | d :: rest =>
      if deployMatches incidentTime d then 1 else scanDeployments incidentTime rest

/-- The credit one incident contributes to `deployment_related_incidents`:
zero when its `timestamp` is falsy or fails to convert, otherwise the result
of scanning the deployments. -/
def incidentCredit (deployments : List Record) (i : Record) : Nat :=
  let it := i.getTimestamp
  if it.truthy then
    match it.toDatetime? with
    | some incidentTime => scanDeployments incidentTime deployments
    | none => 0
  else 0

/-- The final value of `deployment_related_incidents`. -/
def relatedIncidents (deployments incidents : List Record) : Nat :=
  (incidents.map (incidentCredit deployments)).sum

/-- The `failed_deployments` counting loop of
`_calculate_change_failure_rate`, with the `AttributeError` that
`deployment.get('status', '').lower()` raises on a present non-string
status. -/
def countFailed : List Record → Except PyError Nat
  | [] => .ok 0
  | d :: rest =>
      match d.statusLower with
      | .error e => .error e
      | .ok s =>
          match countFailed rest with
          | .error e => .error e
          | .ok n =>
              .ok ((if s = "failed" ∨ s = "error" ∨ s = "failure" then 1 else 0) + n)

/-- A record whose status read cannot raise: the `status` key is absent
(defaulting to the empty string) or holds a string. -/
def statusIsString (d : Record) : Bool :=
  match d.getStatus with
  | .vStr _ _ => true
  | _ => false

/-- The pure failed-status test of the counting loop: the lower-cased status
string is one of `failed`, `error`, `failure`. -/
def isFailedStatus (d : Record) : Bool :=
  match d.getStatus with
  | .vStr raw _ =>
      raw.toLower = "failed" || raw.toLower = "error" || raw.toLower = "failure"
  | _ => false

/-- `_calculate_change_failure_rate` (percentage): `0.0` for no deployments,
otherwise `(failed_deployments + deployment_related_incidents) /
len(deployments) * 100`, raising if the status loop raises. -/
def calculateChangeFailureRate (deployments incidents : List Record) :
    Except PyError Rat :=
  if deployments = [] then .ok 0
  else
    match countFailed deployments with
    | .error e => .error e
    | .ok failed =>
        let related := relatedIncidents deployments incidents
        .ok ((((failed + related : Nat) : Rat) / (deployments.length : Rat)) * 100)

/-- One iteration of the `_calculate_recovery_time` loop:
`start = start_time or timestamp`, `end = end_time or resolved_time`, then
the same conversion, non-negativity filter and hours computation as lead
time. -/
def recoveryTimeOf (i : Record) : Option Rat :=
  let s := pyOr i.getStartTime i.getTimestamp
  let e := pyOr i.getEndTime i.getResolvedTime
  if s.truthy && e.truthy then
    match s.toDatetime?, e.toDatetime? with
    | some st, some et =>
        let hours : Rat := ((et - st : Int) : Rat) / 3600
        if 0 ≤ hours then some hours else none
    | _, _ => none
  else none

/-- The list `recovery_times` accumulated by `_calculate_recovery_time`. -/
def recoveryTimes (incidents : List Record) : List Rat :=
  incidents.filterMap recoveryTimeOf

/-- `_calculate_recovery_time` (hours): mean of the collected recovery
times, or the `4.0`-hour default when none were collected. -/
def calculateRecoveryTime (incidents : List Record) : Rat :=
  let ts := recoveryTimes incidents
  if ts = [] then 4 else ts.sum / (ts.length : Rat)

/-- The result dictionary of `calculate_dora_metrics`: exactly the four
metric keys. -/
structure DoraMetrics where
  deployment_frequency : Rat
  lead_time_for_changes : Rat
  change_failure_rate : Rat
  time_to_restore_service : Rat
deriving DecidableEq, Repr

/-- `calculate_dora_metrics`: builds the four metrics; propagates the
exception `_calculate_change_failure_rate` may raise. -/
def calculateDoraMetrics (deployments incidents : List Record) :
    Except PyError DoraMetrics :=
  match calculateChangeFailureRate deployments incidents with
  | .error e => .error e
  | .ok cfr =>
      .ok
        { deployment_frequency := calculateDeploymentFrequency deployments
          lead_time_for_changes := calculateLeadTime deployments
          change_failure_rate := cfr
          time_to_restore_service := calculateRecoveryTime incidents }

/-- The input of `get_performance_classification`: a metrics dict in which
any of the four keys may be absent (`metrics.get(key, 0)` then defaults to
`0`). -/
structure MetricsIn where
  deployment_frequency : Option Rat := none
  lead_time_for_changes : Option Rat := none
  change_failure_rate : Option Rat := none
  time_to_restore_service : Option Rat := none
deriving DecidableEq, Repr

/-- The classification dictionary: exactly the four metric keys, each a tier
string. -/
structure Classifications where
  deployment_frequency : String
  lead_time_for_changes : String
  change_failure_rate : String
  time_to_restore_service : String
deriving DecidableEq, Repr

/-- `get_performance_classification`: each metric is read with
`metrics.get(key, 0)` and classified by the Elite-first threshold chain of
the code. -/
def getPerformanceClassification (metrics : MetricsIn) : Classifications :=
  let freq := metrics.deployment_frequency.getD 0
  let leadTime := metrics.lead_time_for_changes.getD 0
  let failureRate := metrics.change_failure_rate.getD 0
  let recoveryTime := metrics.time_to_restore_service.getD 0
  { deployment_frequency :=
      if freq ≥ 1 then "Elite"
      else if freq ≥ (14 : Rat) / 100 then "High"
      else if freq ≥ (33 : Rat) / 1000 then "Medium"
      else "Low"
    lead_time_for_changes :=
      if leadTime ≤ 24 then "Elite"
      else if leadTime ≤ 168 then "High"
      else if leadTime ≤ 720 then "Medium"
      else "Low"
    change_failure_rate :=
      if failureRate ≤ 15 then "Elite"
      else if failureRate ≤ 30 then "High"
      else if failureRate ≤ 45 then "Medium"
      else "Low"
    time_to_restore_service :=
      if recoveryTime ≤ 1 then "Elite"
      else if recoveryTime ≤ 24 then "High"
      else if recoveryTime ≤ 168 then "Medium"
      else "Low" }

/-- The day span a deployment list is divided by once at least one timestamp
parses: floor of the max-min span in days, clamped to a minimum of one
day. -/
def spanOf (ds : List Record) : Int :=
  max 1 (((datetimeObjects ds).max?.getD 0 - (datetimeObjects ds).min?.getD 0).fdiv 86400)

/-! ### Helper lemmas -/

/-- The early-exit scan over deployments credits exactly one when some
deployment matches and zero otherwise. -/
theorem scanDeployments_eq_any (t : Int) (ds : List Record) :
    scanDeployments t ds = if ds.any (deployMatches t) then 1 else 0 := by
  induction ds with
  | nil => rfl
  | cons d rest ih =>
      by_cases h : deployMatches t d
      · simp [scanDeployments, h]
      · simp [scanDeployments, h, ih]

/-- Characterization of the inner window test. -/
theorem deployMatches_true_iff (t : Int) (d : Record) :
    deployMatches t d = true ↔
      d.getTimestamp.truthy = true ∧
        ∃ u, d.getTimestamp.toDatetime? = some u ∧ 0 ≤ t - u ∧ t - u ≤ 86400 := by
  unfold deployMatches
  cases h : d.getTimestamp.truthy
  · simp [h]
  · simp only [h, if_true]
    cases h2 : d.getTimestamp.toDatetime?
    · simp [h2]
    · simp [h2]

/-! ### Claims -/

/-- Claim C5: when both the deployments list and the incidents list are
empty, `calculate_dora_metrics` returns exactly deployment_frequency = 0.0,
lead_time_for_changes = 24.0, change_failure_rate = 0.0 and
time_to_restore_service = 4.0. -/
theorem claim_C5_empty_inputs :
    calculateDoraMetrics [] [] =
      .ok { deployment_frequency := 0, lead_time_for_changes := 24,
            change_failure_rate := 0, time_to_restore_service := 4 } := by
  with_unfolding_all rfl

/-- Claim C8: the classifier maps deployment frequency with inclusive lower
boundaries checked Elite-first: exactly 1.0 is Elite, exactly 0.14 is High,
exactly 0.033 is Medium and 0.032 is Low. -/
theorem claim_C8_classifier_boundaries :
    (getPerformanceClassification
        { deployment_frequency := some 1 }).deployment_frequency = "Elite"
    ∧ (getPerformanceClassification
        { deployment_frequency := some ((14 : Rat) / 100) }).deployment_frequency = "High"
    ∧ (getPerformanceClassification
        { deployment_frequency := some ((33 : Rat) / 1000) }).deployment_frequency = "Medium"
    ∧ (getPerformanceClassification
        { deployment_frequency := some ((32 : Rat) / 1000) }).deployment_frequency = "Low" := by
  with_unfolding_all decide

/-- Claim C6 (refuted; the code raises): on a deployment whose `status` key
is present with value `None`, `deployment.get('status', '').lower()` raises
`AttributeError`, so `_calculate_change_failure_rate` (and hence
`calculate_dora_metrics`) raises instead of handling the malformed field by
omission or default. -/
theorem claim_C6_status_none_raises :
    calculateChangeFailureRate [{ status := some .vNone }] [] =
        .error .attributeError
    ∧ calculateDoraMetrics [{ status := some .vNone }] [] =
        .error .attributeError := by
  exact ⟨rfl, rfl⟩

/-- Claim C3: each incident contributes at most one credit, and the ordered
scan with early exit returns one exactly when some deployment satisfies the
window test, regardless of how many deployments match. -/
theorem claim_C3_single_credit_per_incident
    (deployments : List Record) (i : Record) (t : Int) :
    incidentCredit deployments i ≤ 1
    ∧ scanDeployments t deployments =
        (if deployments.any (deployMatches t) then 1 else 0) := by
  refine ⟨?_, scanDeployments_eq_any t deployments⟩
  unfold incidentCredit
  dsimp only
  split
  · split
    · rw [scanDeployments_eq_any]
      split
      · exact le_refl 1
      · exact Nat.zero_le 1
    · exact Nat.zero_le 1
  · exact Nat.zero_le 1

/-- Claim C4: the 24-hour correlation window is inclusive on both ends: an
incident strictly outside the window of every deployment earns zero credit,
an incident exactly at a deployment's time earns credit, and an incident
exactly 24 hours after a deployment earns credit. -/
theorem claim_C4_window_inclusive :
    (∀ (ds : List Record) (t : Int),
        (∀ d ∈ ds, ∀ u : Int, d.getTimestamp.toDatetime? = some u →
            86400 < t - u ∨ t - u < 0) →
        scanDeployments t ds = 0)
    ∧ (∀ (ds : List Record) (d : Record) (u : Int), d ∈ ds →
        d.getTimestamp.truthy = true → d.getTimestamp.toDatetime? = some u →
        scanDeployments u ds = 1)
    ∧ (∀ (ds : List Record) (d : Record) (u : Int), d ∈ ds →
        d.getTimestamp.truthy = true → d.getTimestamp.toDatetime? = some u →
        scanDeployments (u + 86400) ds = 1) := by
  refine ⟨?_, ?_, ?_⟩
  · intro ds t h
    rw [scanDeployments_eq_any]
    have hany : ds.any (deployMatches t) = false := by
      rw [List.any_eq_false]
      intro d hd hmatch
      rw [deployMatches_true_iff] at hmatch
      obtain ⟨-, u, hu, h0, h24⟩ := hmatch
      rcases h d hd u hu with hgt | hlt
      · exact absurd h24 (not_le.mpr hgt)
      · exact absurd h0 (not_le.mpr hlt)
    simp [hany]
  · intro ds d u hd htr hu
    rw [scanDeployments_eq_any]
    have hany : ds.any (deployMatches u) = true := by
      rw [List.any_eq_true]
      refine ⟨d, hd, ?_⟩
      rw [deployMatches_true_iff]
      exact ⟨htr, u, hu, by simp, by simp⟩
    simp [hany]
  · intro ds d u hd htr hu
    rw [scanDeployments_eq_any]
    have hany : ds.any (deployMatches (u + 86400)) = true := by
      rw [List.any_eq_true]
      refine ⟨d, hd, ?_⟩
      rw [deployMatches_true_iff]
      refine ⟨htr, u, hu, ?_, ?_⟩ <;> simp
    simp [hany]

/-- Witness for C4: a deployment at instant 5 credits an incident at instant
5 + 86400 seconds, and credits no incident at instant 1000000. -/
theorem claim_C4_witness :
    scanDeployments (5 + 86400) [{ timestamp := some (.vDt 5) }] = 1
    ∧ scanDeployments 1000000 [{ timestamp := some (.vDt 5) }] = 0 := by
  constructor
  · exact claim_C4_window_inclusive.2.2 [{ timestamp := some (.vDt 5) }]
      { timestamp := some (.vDt 5) } 5 (by simp) rfl rfl
  · refine claim_C4_window_inclusive.1 [{ timestamp := some (.vDt 5) }] 1000000 ?_
    intro d hd u hu
    simp only [List.mem_singleton] at hd
    subst hd
    simp only [Record.getTimestamp, Option.getD, Val.toDatetime?,
      Option.some.injEq] at hu
    subst hu
    left
    decide

/-- On a list whose statuses are all strings (or absent), the failed-status
counting loop does not raise and counts `isFailedStatus`. -/
theorem countFailed_eq_countP (ds : List Record)
    (h : ∀ d ∈ ds, statusIsString d = true) :
    countFailed ds = .ok (ds.countP isFailedStatus) := by
  induction ds with
  | nil => rfl
  | cons d rest ih =>
      have hd := h d (List.mem_cons_self d rest)
      have hrest := ih fun x hx => h x (List.mem_cons_of_mem d hx)
      unfold countFailed
      unfold statusIsString at hd
      unfold Record.statusLower
      cases hst : d.getStatus with
      | vNone => rw [hst] at hd; exact absurd hd (by simp)
      | vDt t => rw [hst] at hd; exact absurd hd (by simp)
      | vStr raw p =>
          rw [hrest]
          have hfail : isFailedStatus d =
              (raw.toLower = "failed" || raw.toLower = "error"
                || raw.toLower = "failure") := by
            unfold isFailedStatus
            rw [hst]
          rw [List.countP_cons, hfail]
          by_cases hcase :
              raw.toLower = "failed" ∨ raw.toLower = "error"
                ∨ raw.toLower = "failure"
          · simp [hcase]
            rcases hcase with h1 | h1 | h1 <;> simp [h1]
            · omega
            · omega
            · omega
          · push_neg at hcase
            obtain ⟨h1, h2, h3⟩ := hcase
            simp [h1, h2, h3]

/-- Claim C2: for a non-empty deployment list whose statuses are readable,
the change failure rate is (failed-status count + deployment-related
incident count) divided by the deployment count, times 100; the value is not
capped at 100 and some input yields a rate above 100. -/
theorem claim_C2_failure_rate_formula :
    (∀ (deployments incidents : List Record), deployments ≠ [] →
        (∀ d ∈ deployments, statusIsString d = true) →
        calculateChangeFailureRate deployments incidents =
          .ok ((((deployments.countP isFailedStatus
                    + relatedIncidents deployments incidents : Nat)) : Rat)
                / (deployments.length : Rat) * 100))
    ∧ (∃ (deployments incidents : List Record) (q : Rat),
        calculateChangeFailureRate deployments incidents = .ok q ∧ 100 < q) := by
  constructor
  · intro deployments incidents hne hok
    unfold calculateChangeFailureRate
    rw [if_neg hne, countFailed_eq_countP deployments hok]
  · refine ⟨[{ timestamp := some (.vDt 0), status := some (.vStr "failed" none) }],
      [{ timestamp := some (.vDt 0) }], 200, ?_, by norm_num⟩
    with_unfolding_all rfl

/-- Witness for C2: one "failed" deployment and no incidents go through the
formula branch without raising. -/
theorem claim_C2_witness :
    calculateChangeFailureRate [{ status := some (.vStr "failed" none) }] [] =
      .ok (((([{ status := some (.vStr "failed" none) }].countP isFailedStatus
              + relatedIncidents [{ status := some (.vStr "failed" none) }] [] : Nat)) : Rat)
            / (([{ status := some (.vStr "failed" none) }] : List Record).length : Rat)
            * 100) :=
  claim_C2_failure_rate_formula.1 [{ status := some (.vStr "failed" none) }] []
    (by simp) (by intro d hd; simp only [List.mem_singleton] at hd; subst hd; rfl)

/-- A collected lead time is non-negative. -/
theorem leadTimeOf_nonneg {d : Record} {x : Rat} (h : leadTimeOf d = some x) :
    0 ≤ x := by
  unfold leadTimeOf at h
  dsimp only at h
  split at h
  · split at h
    · split at h
      · rw [Option.some_inj] at h
        rw [← h]
        assumption
      · exact absurd h (by simp)
    · exact absurd h (by simp)
  · exact absurd h (by simp)

/-- A collected recovery time is non-negative. -/
theorem recoveryTimeOf_nonneg {i : Record} {x : Rat}
    (h : recoveryTimeOf i = some x) : 0 ≤ x := by
  unfold recoveryTimeOf at h
  dsimp only at h
  split at h
  · split at h
    · split at h
      · rw [Option.some_inj] at h
        rw [← h]
        assumption
      · exact absurd h (by simp)
    · exact absurd h (by simp)
  · exact absurd h (by simp)

/-- An end instant strictly before the start instant yields no lead time. -/
theorem leadTimeOf_neg_none {d : Record} {st et : Int}
    (hs : (d.getStartTime).toDatetime? = some st)
    (he : (d.getEndTime).toDatetime? = some et)
    (hlt : et < st) : leadTimeOf d = none := by
  unfold leadTimeOf
  dsimp only
  split
  · rw [hs, he]
    have hneg : ¬ (0 ≤ (((et : Rat) - (st : Rat)) / 3600)) := by
      apply not_le.mpr
      apply div_neg_of_neg_of_pos
      · have hcast : (et : Rat) < (st : Rat) := by exact_mod_cast hlt
        linarith
      · norm_num
    simp [hneg]
  · rfl

/-- An end instant strictly before the start instant yields no recovery
time. -/
theorem recoveryTimeOf_neg_none {i : Record} {st et : Int}
    (hs : (pyOr i.getStartTime i.getTimestamp).toDatetime? = some st)
    (he : (pyOr i.getEndTime i.getResolvedTime).toDatetime? = some et)
    (hlt : et < st) : recoveryTimeOf i = none := by
  unfold recoveryTimeOf
  dsimp only
  split
  · rw [hs, he]
    have hneg : ¬ (0 ≤ (((et : Rat) - (st : Rat)) / 3600)) := by
      apply not_le.mpr
      apply div_neg_of_neg_of_pos
      · have hcast : (et : Rat) < (st : Rat) := by exact_mod_cast hlt
        linarith
      · norm_num
    simp [hneg]
  · rfl

/-- Claim C7: in both lead-time and recovery-time computation every
collected duration is non-negative, a pair whose end precedes its start is
excluded, and the result is the fixed default (24.0 resp. 4.0 hours) when no
duration was collected and the arithmetic mean of the collected durations
otherwise. -/
theorem claim_C7_duration_filter_and_defaults :
    (∀ (ds : List Record) (x : Rat), x ∈ leadTimes ds → 0 ≤ x)
    ∧ (∀ (incs : List Record) (x : Rat), x ∈ recoveryTimes incs → 0 ≤ x)
    ∧ (∀ (d : Record) (st et : Int), d.getStartTime.toDatetime? = some st →
        d.getEndTime.toDatetime? = some et → et < st → leadTimeOf d = none)
    ∧ (∀ (i : Record) (st et : Int),
        (pyOr i.getStartTime i.getTimestamp).toDatetime? = some st →
        (pyOr i.getEndTime i.getResolvedTime).toDatetime? = some et →
        et < st → recoveryTimeOf i = none)
    ∧ (∀ ds, leadTimes ds = [] → calculateLeadTime ds = 24)
    ∧ (∀ incs, recoveryTimes incs = [] → calculateRecoveryTime incs = 4)
    ∧ (∀ ds, leadTimes ds ≠ [] →
        calculateLeadTime ds = (leadTimes ds).sum / ((leadTimes ds).length : Rat))
    ∧ (∀ incs, recoveryTimes incs ≠ [] →
        calculateRecoveryTime incs =
          (recoveryTimes incs).sum / ((recoveryTimes incs).length : Rat)) := by
  refine ⟨?_, ?_, ?_, ?_, ?_, ?_, ?_, ?_⟩
  · intro ds x hx
    unfold leadTimes at hx
    rw [List.mem_filterMap] at hx
    obtain ⟨d, -, hd⟩ := hx
    exact leadTimeOf_nonneg hd
  · intro incs x hx
    unfold recoveryTimes at hx
    rw [List.mem_filterMap] at hx
    obtain ⟨i, -, hi⟩ := hx
    exact recoveryTimeOf_nonneg hi
  · exact fun d st et hs he hlt => leadTimeOf_neg_none hs he hlt
  · exact fun i st et hs he hlt => recoveryTimeOf_neg_none hs he hlt
  · intro ds h
    unfold calculateLeadTime
    rw [h]
    rfl
  · intro incs h
    unfold calculateRecoveryTime
    rw [h]
    rfl
  · intro ds h
    unfold calculateLeadTime
    dsimp only
    rw [if_neg h]
  · intro incs h
    unfold calculateRecoveryTime
    dsimp only
    rw [if_neg h]

/-- Witness for C7: the defaults on empty inputs, a reversed pair being
dropped, and the mean branch on a two-hour deployment. -/
theorem claim_C7_witness :
    calculateLeadTime [] = 24
    ∧ calculateRecoveryTime [] = 4
    ∧ leadTimeOf { start_time := some (.vDt 10), end_time := some (.vDt 3) } = none
    ∧ calculateLeadTime [{ start_time := some (.vDt 0), end_time := some (.vDt 7200) }]
        = (leadTimes [{ start_time := some (.vDt 0), end_time := some (.vDt 7200) }]).sum
          / ((leadTimes [{ start_time := some (.vDt 0), end_time := some (.vDt 7200) }]).length : Rat) := by
  refine ⟨claim_C7_duration_filter_and_defaults.2.2.2.2.1 [] rfl,
    claim_C7_duration_filter_and_defaults.2.2.2.2.2.1 [] rfl,
    claim_C7_duration_filter_and_defaults.2.2.1 _ 10 3 rfl rfl (by norm_num),
    claim_C7_duration_filter_and_defaults.2.2.2.2.2.2.1 _ ?_⟩
  with_unfolding_all decide

/-- Claim C10: the classification always carries exactly the four metric
keys, each valued in the four tier strings; a key absent from the input is
read as 0, so an absent deployment_frequency classifies Low while an absent
lead time, failure rate or recovery time classifies Elite. -/
theorem claim_C10_classification_keys_defaults (m : MetricsIn) :
    ((getPerformanceClassification m).deployment_frequency ∈
        (["Elite", "High", "Medium", "Low"] : List String)
      ∧ (getPerformanceClassification m).lead_time_for_changes ∈
        (["Elite", "High", "Medium", "Low"] : List String)
      ∧ (getPerformanceClassification m).change_failure_rate ∈
        (["Elite", "High", "Medium", "Low"] : List String)
      ∧ (getPerformanceClassification m).time_to_restore_service ∈
        (["Elite", "High", "Medium", "Low"] : List String))
    ∧ (m.deployment_frequency = none →
        (getPerformanceClassification m).deployment_frequency = "Low")
    ∧ (m.lead_time_for_changes = none →
        (getPerformanceClassification m).lead_time_for_changes = "Elite")
    ∧ (m.change_failure_rate = none →
        (getPerformanceClassification m).change_failure_rate = "Elite")
    ∧ (m.time_to_restore_service = none →
        (getPerformanceClassification m).time_to_restore_service = "Elite") := by
  unfold getPerformanceClassification
  dsimp only
  refine ⟨⟨?_, ?_, ?_, ?_⟩, ?_, ?_, ?_, ?_⟩
  · split_ifs <;> simp
  · split_ifs <;> simp
  · split_ifs <;> simp
  · split_ifs <;> simp
  · intro h
    rw [h]
    dsimp only [Option.getD]
    rw [if_neg (by norm_num), if_neg (by norm_num), if_neg (by norm_num)]
  · intro h
    rw [h]
    dsimp only [Option.getD]
    rw [if_pos (by norm_num)]
  · intro h
    rw [h]
    dsimp only [Option.getD]
    rw [if_pos (by norm_num)]
  · intro h
    rw [h]
    dsimp only [Option.getD]
    rw [if_pos (by norm_num)]

/-- Witness for C10: the all-absent input classifies Low / Elite / Elite /
Elite. -/
theorem claim_C10_witness :
    (getPerformanceClassification {}).deployment_frequency = "Low"
    ∧ (getPerformanceClassification {}).lead_time_for_changes = "Elite"
    ∧ (getPerformanceClassification {}).change_failure_rate = "Elite"
    ∧ (getPerformanceClassification {}).time_to_restore_service = "Elite" :=
  ⟨(claim_C10_classification_keys_defaults {}).2.1 rfl,
   (claim_C10_classification_keys_defaults {}).2.2.1 rfl,
   (claim_C10_classification_keys_defaults {}).2.2.2.1 rfl,
   (claim_C10_classification_keys_defaults {}).2.2.2.2 rfl⟩

/-- In a non-empty integer list the minimum is at most the maximum. -/
theorem min?_getD_le_max?_getD (l : List Int) (h : l ≠ []) :
    l.min?.getD 0 ≤ l.max?.getD 0 := by
  obtain ⟨x, hx⟩ := List.exists_mem_of_ne_nil l h
  obtain ⟨mn, hmn⟩ := Option.isSome_iff_exists.mp (List.isSome_min?_of_mem hx)
  obtain ⟨mx, hmx⟩ := Option.isSome_iff_exists.mp (List.isSome_max?_of_mem hx)
  have hmn' := (@List.min?_eq_some_iff Int mn _ _ ⟨fun h1 h2 => le_antisymm h1 h2⟩
    (fun a => le_refl a) (fun a b => min_choice a b) (fun a b c => le_min_iff) l).mp hmn
  have hmx' := (@List.max?_eq_some_iff Int mx _ _ ⟨fun h1 h2 => le_antisymm h1 h2⟩
    (fun a => le_refl a) (fun a b => max_choice a b) (fun a b c => max_le_iff) l).mp hmx
  rw [hmn, hmx]
  simp only [Option.getD_some]
  exact le_trans (hmn'.2 x hx) (hmx'.2 x hx)

/-- Replacing a zero span by one day is clamping to a minimum of one day, on
non-negative spans. -/
theorem ifZero_eq_max_one {t : Int} (h : 0 ≤ t) :
    ((if t = 0 then 1 else t) : Int) = max 1 t := by
  by_cases h0 : t = 0
  · subst h0
    decide
  · have h1 : (1 : Int) ≤ t := by omega
    rw [if_neg h0, max_eq_right h1]

/-- Once at least one timestamp parses, deployment frequency is the record
count divided by the clamped day span (for a single parsed timestamp the
span is one day and the quotient is the record count, matching the
fewer-than-two branch). -/
theorem freq_closed_form (ds : List Record) (h : datetimeObjects ds ≠ []) :
    calculateDeploymentFrequency ds = (ds.length : Rat) / ((spanOf ds : Int) : Rat) := by
  have hds : ds ≠ [] := by
    intro h0
    apply h
    rw [h0]
    rfl
  have hex : extractDates ds ≠ [] := by
    intro h0
    apply h
    unfold datetimeObjects
    rw [h0]
    rfl
  unfold calculateDeploymentFrequency
  dsimp only
  rw [if_neg hds, if_neg hex]
  by_cases hlen : (datetimeObjects ds).length < 2
  · rw [if_pos hlen]
    have h1 : (datetimeObjects ds).length = 1 := by
      have hpos := List.length_pos.mpr h
      omega
    obtain ⟨a, ha⟩ := List.length_eq_one.mp h1
    have hspan : spanOf ds = 1 := by
      unfold spanOf
      rw [ha]
      show max 1 ((a - a).fdiv 86400) = 1
      rw [sub_self, Int.zero_fdiv]
      decide
    rw [hspan]
    norm_num
  · rw [if_neg hlen]
    have hmm := min?_getD_le_max?_getD _ h
    have h0 : 0 ≤ ((datetimeObjects ds).max?.getD 0
        - (datetimeObjects ds).min?.getD 0).fdiv 86400 :=
      Int.fdiv_nonneg (by omega) (by norm_num)
    rw [ifZero_eq_max_one h0]
    unfold spanOf
    rfl

/-- Claim C1: the code's deployment frequency coincides with the spec's
reference algorithm on every deployment list: 0.0 with no present
timestamps, the raw record count with fewer than two parsed datetimes, and
otherwise the record count divided by the floor day span clamped to a
minimum of one day. -/
theorem claim_C1_frequency_matches_spec (deployments : List Record) :
    calculateDeploymentFrequency deployments = specDeploymentFrequency deployments := by
  unfold calculateDeploymentFrequency specDeploymentFrequency datetimeObjects
  dsimp only
  by_cases hds : deployments = []
  · subst hds
    rfl
  · rw [if_neg hds]
    by_cases hp : extractDates deployments = []
    · rw [if_pos hp, if_pos hp]
    · rw [if_neg hp, if_neg hp]
      by_cases hlen : ((extractDates deployments).filterMap Val.toDatetime?).length < 2
      · rw [if_pos hlen, if_pos hlen]
      · rw [if_neg hlen, if_neg hlen]
        have hne : (extractDates deployments).filterMap Val.toDatetime? ≠ [] := by
          intro h0
          rw [h0] at hlen
          exact hlen (by simp)
        have hmm := min?_getD_le_max?_getD _ hne
        have h0 : 0 ≤ (((extractDates deployments).filterMap Val.toDatetime?).max?.getD 0
            - ((extractDates deployments).filterMap Val.toDatetime?).min?.getD 0).fdiv 86400 :=
          Int.fdiv_nonneg (by omega) (by norm_num)
        rw [ifZero_eq_max_one h0]

/-- Claim C9: with the parsed timestamps agreeing on minimum and maximum
(hence on the day span), the deployment list with at least as many records
has at least as large a deployment frequency. -/
theorem claim_C9_frequency_monotone (ds1 ds2 : List Record)
    (hne : datetimeObjects ds2 ≠ [])
    (hmin : (datetimeObjects ds1).min? = (datetimeObjects ds2).min?)
    (hmax : (datetimeObjects ds1).max? = (datetimeObjects ds2).max?)
    (hlen : ds2.length ≤ ds1.length) :
    calculateDeploymentFrequency ds2 ≤ calculateDeploymentFrequency ds1 := by
  have hne1 : datetimeObjects ds1 ≠ [] := by
    intro h0
    apply hne
    rw [h0, List.min?_nil] at hmin
    exact List.min?_eq_none_iff.mp hmin.symm
  rw [freq_closed_form ds1 hne1, freq_closed_form ds2 hne]
  have hspan : spanOf ds1 = spanOf ds2 := by
    unfold spanOf
    rw [hmin, hmax]
  rw [hspan]
  have hpos : (0 : Rat) ≤ ((spanOf ds2 : Int) : Rat) := by
    have h1 : (1 : Int) ≤ spanOf ds2 := le_max_left 1 _
    have : (0 : Int) ≤ spanOf ds2 := by omega
    exact_mod_cast this
  exact div_le_div_of_nonneg_right (by exact_mod_cast hlen) hpos

/-- Witness for C9: two deployments at instants 0 and 172800 seconds (2
days) give frequency 1; adding a third record with no timestamp keeps the
span and raises the frequency. -/
theorem claim_C9_witness :
    calculateDeploymentFrequency
        [{ timestamp := some (.vDt 0) }, { timestamp := some (.vDt 172800) }]
      ≤ calculateDeploymentFrequency
        [{ timestamp := some (.vDt 0) }, { timestamp := some (.vDt 172800) }, {}] :=
  claim_C9_frequency_monotone
    [{ timestamp := some (.vDt 0) }, { timestamp := some (.vDt 172800) }, {}]
    [{ timestamp := some (.vDt 0) }, { timestamp := some (.vDt 172800) }]
    (by decide) (by decide) (by decide) (by decide)
